import Mathlib

/-!
# sherpa-onnx: `csrc/online-recognizer.cc`

A shallow embedding of the streaming recognizer facade:

* `OnlineRecognizerResult::AsJsonString` (result serialisation),
* `OnlineRecognizerConfig::Validate` and `OnlineRecognizerConfig::ToString`,
* the `OnlineRecognizer` constructor and its seven forwarding methods.

Conventions of the embedding.

* `std::ostringstream` is a record holding the text written so far together
  with the two formatting flags the file touches (`std::fixed`,
  `std::setprecision`).
* `float` is an arbitrary type `F`; how the C++ runtime prints a `float` is a
  parameter (`render fixed precision x` for stream insertion, `dumpFloat x` for
  the JSON number writer).  `FiniteFloat` is an exact model of the finite
  binary values, used wherever a concrete rendering is needed.
* `int32_t` is `Int`; the file only compares such values with `0` and prints
  them, so no wrap-around can occur.
* `std::string` is `String`.
* Sub-configurations (`FeatureExtractorConfig`, `OnlineModelConfig`,
  `OnlineLMConfig`, `EndpointConfig`) are declared in other files; their types
  are type parameters and their `Validate` / `ToString` methods are function
  parameters.  Of `OnlineLMConfig` only the field `model` is read here.
-/

namespace sherpa_onnx

/-! ## `std::ostringstream` -/

/-- State of a `std::ostringstream`: the characters written so far, whether
`floatfield` is `std::ios_base::fixed`, and the precision. -/
structure OStringStream where
  buf : String
  fixed : Bool
  precision : Nat
deriving Repr, DecidableEq

/-- A default-constructed `std::ostringstream os;`: empty buffer, no
`floatfield` flag, precision 6. -/
def OStringStream.init : OStringStream := ⟨"", false, 6⟩

/-- `os << s` for a string (or string literal). -/
def OStringStream.put (os : OStringStream) (s : String) : OStringStream :=
  { os with buf := os.buf ++ s }

/-- `os << std::fixed`. -/
def OStringStream.setFixed (os : OStringStream) : OStringStream :=
  { os with fixed := true }

/-- `os << std::setprecision(p)`. -/
def OStringStream.setPrecision (os : OStringStream) (p : Nat) : OStringStream :=
  { os with precision := p }

/-- `os << i` for an `int32_t`: decimal digits, with a leading `-` when
negative. -/
def OStringStream.putInt (os : OStringStream) (i : Int) : OStringStream :=
  os.put (toString i)

/-- `os << x` for a `float`: the text depends on the stream's current
`floatfield` flag and precision. -/
def OStringStream.putFloat {F : Type} (render : Bool → Nat → F → String)
    (os : OStringStream) (x : F) : OStringStream :=
  os.put (render os.fixed os.precision x)

/-- `os.str()`. -/
def OStringStream.str (os : OStringStream) : String := os.buf

/-! ## Configuration -/

/-- The part of `OnlineLMConfig` this file reads: the path of the language
model (`model`); every other field is kept in `rest`. -/
structure OnlineLMConfig (LmRest : Type) where
  model : String
  rest : LmRest

/-- `struct OnlineRecognizerConfig`. -/
structure OnlineRecognizerConfig
    (F FeatureExtractorConfig OnlineModelConfig LmRest EndpointConfig : Type) where
  feat_config : FeatureExtractorConfig
  model_config : OnlineModelConfig
  lm_config : OnlineLMConfig LmRest
  endpoint_config : EndpointConfig
  enable_endpoint : Bool
  max_active_paths : Int
  hotwords_score : F
  hotwords_file : String
  decoding_method : String

/-- `OnlineRecognizerConfig::Validate`.  `modelValidate` and `lmValidate` are
`model_config.Validate()` and `lm_config.Validate()`.  The call to
`SHERPA_ONNX_LOGE` only logs and is left out. -/
def OnlineRecognizerConfig.Validate {F FE M L E : Type}
    (modelValidate : M → Bool) (lmValidate : OnlineLMConfig L → Bool)
    (cfg : OnlineRecognizerConfig F FE M L E) : Bool :=
  if cfg.decoding_method == "modified_beam_search" && !cfg.lm_config.model.isEmpty then
    if cfg.max_active_paths ≤ 0 then
      false
    else if !lmValidate cfg.lm_config then
      false
    else
      modelValidate cfg.model_config
  else
    modelValidate cfg.model_config

/-- `OnlineRecognizerConfig::ToString`.  The four `…ToString` parameters are
the `ToString()` methods of the sub-configurations; `render` is the stream's
`float` insertion. -/
def OnlineRecognizerConfig.ToString {F FE M L E : Type}
    (render : Bool → Nat → F → String)
    (featToString : FE → String) (modelToString : M → String)
    (lmToString : OnlineLMConfig L → String) (endpointToString : E → String)
    (cfg : OnlineRecognizerConfig F FE M L E) : String :=
  let os := OStringStream.init
  let os := os.put "OnlineRecognizerConfig("
  let os := ((os.put "feat_config=").put (featToString cfg.feat_config)).put ", "
  let os := ((os.put "model_config=").put (modelToString cfg.model_config)).put ", "
  let os := ((os.put "lm_config=").put (lmToString cfg.lm_config)).put ", "
  let os := ((os.put "endpoint_config=").put (endpointToString cfg.endpoint_config)).put ", "
  let os := ((os.put "enable_endpoint=").put (if cfg.enable_endpoint then "True" else "False")).put ", "
  let os := ((os.put "max_active_paths=").putInt cfg.max_active_paths).put ", "
  let os := ((os.put "hotwords_score=").putFloat render cfg.hotwords_score).put ", "
  let os := ((os.put "hotwords_file=\"").put cfg.hotwords_file).put "\", "
  let os := ((os.put "decoding_method=\"").put cfg.decoding_method).put "\")"
  os.str

/-! ## JSON values (`nlohmann::json`) -/

/-- Value of type `nlohmann::json`, that is `basic_json<>` with its default
template arguments.  The object type of `basic_json<>` is `std::map`, so an
object is kept as a list of members sorted by key (see `Json.mapSet`). -/
inductive Json (F : Type) where
  | null
  | bool (b : Bool)
  | int (i : Int)
  | float (x : F)
  | str (s : String)
  | arr (xs : List (Json F))
  | obj (kvs : List (String × Json F))

/-- Strict lexicographic order on character sequences, comparing code points.
`std::less` on `std::string` compares the UTF-8 bytes as unsigned values, and
UTF-8 preserves the order of code points. -/
def charsLt : List Char → List Char → Bool
  | _, [] => false
  | [], _ :: _ => true
  | a :: as, b :: bs =>
    if a.toNat < b.toNat then true
    else if b.toNat < a.toNat then false
    else charsLt as bs

/-- Key order of the `std::map` behind a JSON object. -/
def keyLt (a b : String) : Bool := charsLt a.data b.data

/-- The effect of `m[key] = v` on a `std::map<std::string, json>`: the member
with an equivalent key is overwritten, otherwise a new member is inserted at
its sorted position. -/
def Json.mapSet {F : Type} (key : String) (v : Json F) :
    List (String × Json F) → List (String × Json F)
  | [] => [(key, v)]
  | (k, w) :: rest =>
    if keyLt key k then (key, v) :: (k, w) :: rest
    else if keyLt k key then (k, w) :: Json.mapSet key v rest
    else (k, v) :: rest

/-- The statement `j[key] = v;`.  `operator[]` turns a `null` value into an
empty object first; on a value that is neither `null` nor an object it throws
`type_error`, modelled as `none`. -/
def Json.set {F : Type} (j : Json F) (key : String) (v : Json F) : Option (Json F) :=
  match j with
  | .null => some (.obj (Json.mapSet key v []))
  | .obj kvs => some (.obj (Json.mapSet key v kvs))
  | _ => none

/-- Lower-case hexadecimal digit. -/
def hexDigit (n : Nat) : Char :=
  if n < 10 then Char.ofNat (48 + n) else Char.ofNat (87 + n)

/-- How the serializer writes one character of a string (`dump_escaped` with
`ensure_ascii == false`): the quotation mark, the backslash and the control
characters below U+0020 are escaped, everything else is copied. -/
def escapeChar (c : Char) : List Char :=
  if c = '"' then ['\\', '"']
  else if c = '\\' then ['\\', '\\']
  else if c.toNat = 8 then ['\\', 'b']
  else if c.toNat = 9 then ['\\', 't']
  else if c.toNat = 10 then ['\\', 'n']
  else if c.toNat = 12 then ['\\', 'f']
  else if c.toNat = 13 then ['\\', 'r']
  else if c.toNat < 32 then
    ['\\', 'u', '0', '0', hexDigit (c.toNat / 16), hexDigit (c.toNat % 16)]
  else [c]

/-- Escaped content of a JSON string. -/
def escape (s : String) : String := String.mk (s.data.flatMap escapeChar)

/-- A string as the serializer writes it: escaped, between quotation marks. -/
def quote (s : String) : String := "\"" ++ escape s ++ "\""

mutual
/-- `j.dump()` with the default arguments (no indentation, no ASCII-only
escaping): the compact serialisation.  `dumpFloat` writes a `number_float`. -/
def Json.dump {F : Type} (dumpFloat : F → String) : Json F → String
  | .null => "null"
  | .bool b => if b then "true" else "false"
  | .int i => toString i
  | .float x => dumpFloat x
  | .str s => quote s
  | .arr xs => "[" ++ Json.dumpElems dumpFloat xs ++ "]"
  | .obj kvs => "\x7b" ++ Json.dumpMembers dumpFloat kvs ++ "\x7d"
/-- Elements of an array, separated by a comma. -/
def Json.dumpElems {F : Type} (dumpFloat : F → String) : List (Json F) → String
  | [] => ""
  | [x] => Json.dump dumpFloat x
  | x :: y :: rest => Json.dump dumpFloat x ++ "," ++ Json.dumpElems dumpFloat (y :: rest)
/-- Members of an object in map order, separated by a comma. -/
def Json.dumpMembers {F : Type} (dumpFloat : F → String) :
    List (String × Json F) → String
  | [] => ""
  | [(k, v)] => quote k ++ ":" ++ Json.dump dumpFloat v
  | (k, v) :: y :: rest =>
    quote k ++ ":" ++ Json.dump dumpFloat v ++ "," ++ Json.dumpMembers dumpFloat (y :: rest)
end

/-- Keys of a JSON object, in map order (`none` for any other value). -/
def Json.keys {F : Type} : Json F → Option (List String)
  | .obj kvs => some (kvs.map Prod.fst)
  | _ => none

/-- Member lookup in a JSON object. -/
def Json.get? {F : Type} (j : Json F) (key : String) : Option (Json F) :=
  match j with
  | .obj kvs => (kvs.find? (fun kv => kv.1 == key)).map Prod.snd
  | _ => none

/-! ## Recognition result -/

/-- `struct OnlineRecognizerResult`. -/
structure OnlineRecognizerResult (F : Type) where
  text : String
  tokens : List String
  timestamps : List F
  segment : Int
  start_time : F
  is_final : Bool

/-- One iteration of the loop over `timestamps` in `AsJsonString`:
`os << sep << std::fixed << std::setprecision(2) << t; sep = ", ";`.
The loop state is the stream and the current separator. -/
def timestampsStep {F : Type} (render : Bool → Nat → F → String)
    (st : OStringStream × String) (t : F) : OStringStream × String :=
  (((((st.1.put st.2).setFixed).setPrecision 2).putFloat render t), ", ")

/-- The text assigned to `j["timestamps"]` by `AsJsonString` (the `#if 1`
branch). -/
def timestampsString {F : Type} (render : Bool → Nat → F → String) (timestamps : List F) :
    String :=
  let os := OStringStream.init
  let os := os.put "["
  let sep := ""
  let st := timestamps.foldl (timestampsStep render) (os, sep)
  let os := st.1.put "]"
  os.str

/-- The JSON value `j` that `AsJsonString` has built when it reaches
`return j.dump();`. -/
def OnlineRecognizerResult.AsJson {F : Type} (render : Bool → Nat → F → String)
    (r : OnlineRecognizerResult F) : Option (Json F) := do
  let j : Json F := .null
  let j ← j.set "text" (.str r.text)
  let j ← j.set "tokens" (.arr (r.tokens.map .str))
  let j ← j.set "start_time" (.float r.start_time)
  let j ← j.set "timestamps" (.str (timestampsString render r.timestamps))
  let j ← j.set "segment" (.int r.segment)
  let j ← j.set "is_final" (.bool r.is_final)
  pure j

/-- `OnlineRecognizerResult::AsJsonString`; `none` would be an exception thrown
by the JSON library. -/
def OnlineRecognizerResult.AsJsonString {F : Type} (render : Bool → Nat → F → String)
    (dumpFloat : F → String) (r : OnlineRecognizerResult F) : Option String :=
  (r.AsJson render).map (Json.dump dumpFloat)

/-! ## Finite floating-point values -/

/-- A finite binary floating-point value `(-1)^neg * mant * 2^exp`.  Every
finite `float` and `double` is of this form, and converting a `float` to
`double` does not change it. -/
structure FiniteFloat where
  neg : Bool
  mant : Nat
  exp : Int
deriving Repr, DecidableEq

/-- `num / den` rounded to the nearest integer, ties to even. -/
def roundHalfEven (num den : Nat) : Nat :=
  let q := num / den
  let r := num % den
  if 2 * r < den then q
  else if den < 2 * r then q + 1
  else if q % 2 = 0 then q
  else q + 1

/-- The magnitude of `x` times `10^prec`, correctly rounded to an integer. -/
def FiniteFloat.scaled (x : FiniteFloat) (prec : Nat) : Nat :=
  roundHalfEven (x.mant * 10 ^ prec * 2 ^ x.exp.toNat) (2 ^ (-x.exp).toNat)

/-- The `prec` low-order decimal digits of `n`, most significant first. -/
def fracDigits : Nat → Nat → List Char
  | 0, _ => []
  | p + 1, n => fracDigits p (n / 10) ++ [Nat.digitChar (n % 10)]

/-- Fixed notation with `prec` digits after the decimal point (`%.*f`): the
sign, the integer part, and, when `prec > 0`, a point followed by exactly
`prec` digits. -/
def FiniteFloat.fixedPoint (prec : Nat) (x : FiniteFloat) : String :=
  let n := x.scaled prec
  (if x.neg then "-" else "") ++ toString (n / 10 ^ prec) ++
    (if prec = 0 then "" else "." ++ String.mk (fracDigits prec (n % 10 ^ prec)))

/-- Stream insertion of a finite value.  With `std::fixed` set the text is
`fixedPoint`; the default notation (`%g`) is the parameter `general`. -/
def FiniteFloat.render (general : Nat → FiniteFloat → String)
    (fixed : Bool) (prec : Nat) (x : FiniteFloat) : String :=
  if fixed then x.fixedPoint prec else general prec x

/-- The JSON number writer for a finite `number_float` (`to_chars`): a minus
sign when the sign bit is set, `0.0` for zero, and otherwise the shortest
round-tripping digits, which are the parameter `shortest`. -/
def FiniteFloat.to_chars (shortest : FiniteFloat → String) (x : FiniteFloat) : String :=
  (if x.neg then "-" else "") ++
    (if x.mant = 0 then "0.0" else shortest { x with neg := false })

/-- The value `0.0f`. -/
def FiniteFloat.zero : FiniteFloat := ⟨false, 0, 0⟩

/-- The operations of the abstract class `OnlineRecognizerImpl` that the
facade calls, as computations in an effect `m` (whatever the implementation
reads and mutates).  `OnlineStream *` is a `Stream` handle; the pair
`OnlineStream **ss, int32_t n` is the handle array together with `n`. -/
structure OnlineRecognizerImpl (m : Type → Type) (Stream Result : Type) where
  CreateStream : m Stream
  CreateStreamHotwords : String → m Stream
  IsReady : Stream → m Bool
  DecodeStreams : List Stream → Int → m Unit
  GetResult : Stream → m Result
  IsEndpoint : Stream → m Bool
  Reset : Stream → m Unit

/-- `class OnlineRecognizer`: its only data member is `impl_`. -/
structure OnlineRecognizer (m : Type → Type) (Stream Result : Type) where
  impl_ : OnlineRecognizerImpl m Stream Result

/-- The constructor `OnlineRecognizer::OnlineRecognizer(config)`:
`impl_(OnlineRecognizerImpl::Create(config))`.  `Create` is the factory; when
it fails no recognizer exists. -/
def OnlineRecognizer.new {m : Type → Type} {Stream Result Config Err : Type}
    (Create : Config → Except Err (OnlineRecognizerImpl m Stream Result))
    (config : Config) : Except Err (OnlineRecognizer m Stream Result) :=
  match Create config with
  | .ok impl => .ok ⟨impl⟩
  | .error e => .error e

/-- `OnlineRecognizer::CreateStream()`. -/
def OnlineRecognizer.CreateStream {m : Type → Type} {Stream Result : Type}
    (self : OnlineRecognizer m Stream Result) : m Stream :=
  self.impl_.CreateStream

/-- `OnlineRecognizer::CreateStream(hotwords)`. -/
def OnlineRecognizer.CreateStreamHotwords {m : Type → Type} {Stream Result : Type}
    (self : OnlineRecognizer m Stream Result) (hotwords : String) : m Stream :=
  self.impl_.CreateStreamHotwords hotwords

/-- `OnlineRecognizer::IsReady(s)`. -/
def OnlineRecognizer.IsReady {m : Type → Type} {Stream Result : Type}
    (self : OnlineRecognizer m Stream Result) (s : Stream) : m Bool :=
  self.impl_.IsReady s

/-- `OnlineRecognizer::DecodeStreams(ss, n)`. -/
def OnlineRecognizer.DecodeStreams {m : Type → Type} {Stream Result : Type}
    (self : OnlineRecognizer m Stream Result) (ss : List Stream) (n : Int) : m Unit :=
  self.impl_.DecodeStreams ss n

/-- `OnlineRecognizer::GetResult(s)`. -/
def OnlineRecognizer.GetResult {m : Type → Type} {Stream Result : Type}
    (self : OnlineRecognizer m Stream Result) (s : Stream) : m Result :=
  self.impl_.GetResult s

/-- `OnlineRecognizer::IsEndpoint(s)`. -/
def OnlineRecognizer.IsEndpoint {m : Type → Type} {Stream Result : Type}
    (self : OnlineRecognizer m Stream Result) (s : Stream) : m Bool :=
  self.impl_.IsEndpoint s

/-- `OnlineRecognizer::Reset(s)`. -/
def OnlineRecognizer.Reset {m : Type → Type} {Stream Result : Type}
    (self : OnlineRecognizer m Stream Result) (s : Stream) : m Unit :=
  self.impl_.Reset s

/-! ### Call traces -/

/-- A stateful computation: explicit state passing over `World`. -/
def Prog (World α : Type) : Type := World → α × World

/-- One call received by the implementation, with its arguments. -/
inductive Call (Stream : Type) where
  | CreateStream
  | CreateStreamHotwords (hotwords : String)
  | IsReady (s : Stream)
  | DecodeStreams (ss : List Stream) (n : Int)
  | GetResult (s : Stream)
  | IsEndpoint (s : Stream)
  | Reset (s : Stream)
deriving DecidableEq

/-- Run `op` and append `c` to the log of calls. -/
def logged {World Stream α : Type} (c : Call Stream) (op : Prog World α) :
    Prog (World × List (Call Stream)) α :=
  fun w => ((op w.1).1, ((op w.1).2, w.2 ++ [c]))

/-- An implementation instrumented so that every call it receives is
recorded, in order, with the arguments it was given. -/
def traced {World Stream Result : Type}
    (impl : OnlineRecognizerImpl (Prog World) Stream Result) :
    OnlineRecognizerImpl (Prog (World × List (Call Stream))) Stream Result where
  CreateStream := logged .CreateStream impl.CreateStream
  CreateStreamHotwords := fun h => logged (.CreateStreamHotwords h) (impl.CreateStreamHotwords h)
  IsReady := fun s => logged (.IsReady s) (impl.IsReady s)
  DecodeStreams := fun ss n => logged (.DecodeStreams ss n) (impl.DecodeStreams ss n)
  GetResult := fun s => logged (.GetResult s) (impl.GetResult s)
  IsEndpoint := fun s => logged (.IsEndpoint s) (impl.IsEndpoint s)
  Reset := fun s => logged (.Reset s) (impl.Reset s)

/-! ### Parts of the repository that are not in `online-recognizer.cc` -/

/-- Error taxonomy of construction: an invalid configuration. -/
inductive ConstructionError where
  | ConfigurationError
deriving DecidableEq, Repr

/-- Modelled from the spec: the factory `OnlineRecognizerImpl::Create`, whose
definition is in `online-recognizer-impl.cc`, outside this file.  "Construction
fails with `ConfigurationError` if configuration validation fails";
"`CreateRecognizer(config) → Recognizer` — fails if config validation fails";
"For all valid configurations, `CreateRecognizer` succeeds iff `Validate` would
accept it".  `build` stands for the construction of the implementation from an
accepted configuration. -/
def OnlineRecognizerImpl.Create {m : Type → Type} {Stream Result F FE M L E : Type}
    (modelValidate : M → Bool) (lmValidate : OnlineLMConfig L → Bool)
    (build : OnlineRecognizerConfig F FE M L E → OnlineRecognizerImpl m Stream Result)
    (config : OnlineRecognizerConfig F FE M L E) :
    Except ConstructionError (OnlineRecognizerImpl m Stream Result) :=
  if config.Validate modelValidate lmValidate then .ok (build config)
  else .error .ConfigurationError

/-- Modelled from the spec: the Recognition Result that the implementation's
`GetResult` builds; the implementations of `OnlineRecognizerImpl::GetResult`
are outside this file.  "`timestamps`: ordered sequence of per-token time
offsets, same length as `tokens`"; "Invariant: `len(tokens) ==
len(timestamps)`"; "`GetResult(stream)`: builds the Recognition Result snapshot
from current decode state." -/
structure RecognitionResult (F : Type) extends OnlineRecognizerResult F where
  invariant : tokens.length = timestamps.length

/-! ## Sample inputs -/

/-- Beam search, no language model, `max_active_paths == 0`. -/
def cfgBeamNoLm : OnlineRecognizerConfig Unit Unit Unit Unit Unit where
  feat_config := ()
  model_config := ()
  lm_config := ⟨"", ()⟩
  endpoint_config := ()
  enable_endpoint := true
  max_active_paths := 0
  hotwords_score := ()
  hotwords_file := ""
  decoding_method := "modified_beam_search"

/-- Beam search with a language model configured and `max_active_paths == 0`. -/
def cfgBeamLm : OnlineRecognizerConfig Unit Unit Unit Unit Unit where
  feat_config := ()
  model_config := ()
  lm_config := ⟨"lm.onnx", ()⟩
  endpoint_config := ()
  enable_endpoint := true
  max_active_paths := 0
  hotwords_score := ()
  hotwords_file := ""
  decoding_method := "modified_beam_search"

/-- The result with text `hi`, tokens `["hi"]`, start time `0.0`, timestamps
`[0.0]`, segment `0`, final. -/
def hiResult : OnlineRecognizerResult FiniteFloat where
  text := "hi"
  tokens := ["hi"]
  timestamps := [FiniteFloat.zero]
  segment := 0
  start_time := FiniteFloat.zero
  is_final := true

/-- An implementation over one-point types: a stand-in for a built
implementation. -/
def sampleImpl : OnlineRecognizerImpl Id Unit Unit where
  CreateStream := ()
  CreateStreamHotwords := fun _ => ()
  IsReady := fun _ => true
  DecodeStreams := fun _ _ => ()
  GetResult := fun _ => ()
  IsEndpoint := fun _ => false
  Reset := fun _ => ()

/-! ## Theorems -/

/-! ### Validation -/

theorem beamWithLm_iff {F FE M L E : Type} (cfg : OnlineRecognizerConfig F FE M L E) :
    (cfg.decoding_method == "modified_beam_search" && !cfg.lm_config.model.isEmpty) = true ↔
      (cfg.decoding_method = "modified_beam_search" ∧ cfg.lm_config.model ≠ "") := by
  have h : cfg.lm_config.model.isEmpty = false ↔ cfg.lm_config.model ≠ "" := by
    rw [Ne, ← String.isEmpty_iff]
    cases cfg.lm_config.model.isEmpty <;> simp
  simp [h]

/-- C1. When `model_config.Validate()` and `lm_config.Validate()` both accept,
`Validate` returns true exactly when `max_active_paths > 0` holds whenever the
decoding method is `modified_beam_search` and a language model is configured;
in particular `max_active_paths == 0` is rejected in that case, and every
`max_active_paths` is accepted when the method is not `modified_beam_search`
or no language model is configured. -/
theorem Validate_iff_of_subconfigs_accept {F FE M L E : Type}
    (modelValidate : M → Bool) (lmValidate : OnlineLMConfig L → Bool)
    (cfg : OnlineRecognizerConfig F FE M L E)
    (hm : modelValidate cfg.model_config = true)
    (hl : lmValidate cfg.lm_config = true) :
    (cfg.Validate modelValidate lmValidate = true ↔
      (cfg.decoding_method = "modified_beam_search" ∧ cfg.lm_config.model ≠ "" →
        0 < cfg.max_active_paths)) ∧
    (cfg.decoding_method = "modified_beam_search" → cfg.lm_config.model ≠ "" →
      cfg.max_active_paths = 0 → cfg.Validate modelValidate lmValidate = false) ∧
    (cfg.decoding_method ≠ "modified_beam_search" ∨ cfg.lm_config.model = "" →
      cfg.Validate modelValidate lmValidate = true) := by
  have key : cfg.Validate modelValidate lmValidate = true ↔
      (cfg.decoding_method = "modified_beam_search" ∧ cfg.lm_config.model ≠ "" →
        0 < cfg.max_active_paths) := by
    unfold OnlineRecognizerConfig.Validate
    by_cases hb : (cfg.decoding_method == "modified_beam_search" &&
        !cfg.lm_config.model.isEmpty) = true
    · have hb2 := (beamWithLm_iff cfg).1 hb
      rw [if_pos hb]
      by_cases hp : cfg.max_active_paths ≤ 0
      · rw [if_pos hp]
        constructor
        · intro h; cases h
        · intro h; have := h hb2; omega
      · rw [if_neg hp]
        simp only [hl, hm, Bool.not_true, Bool.false_eq_true, if_false, true_iff]
        intro _; omega
    · rw [if_neg hb, hm]
      simp only [true_iff]
      intro h
      exact absurd ((beamWithLm_iff cfg).2 h) hb
  refine ⟨key, ?_, ?_⟩
  · intro h1 h2 h3
    cases hv : cfg.Validate modelValidate lmValidate
    · rfl
    · have := key.1 hv ⟨h1, h2⟩; omega
  · intro h
    apply key.2
    rintro ⟨h1, h2⟩
    rcases h with h | h
    · exact absurd h1 h
    · exact absurd h h2

/-- Instance of C1 at the beam-search configuration with a language model and
`max_active_paths == 0`, both sub-configurations accepted. -/
theorem Validate_iff_of_subconfigs_accept_witness :
    (cfgBeamLm.Validate (fun _ => true) (fun _ => true) = true ↔
      (cfgBeamLm.decoding_method = "modified_beam_search" ∧ cfgBeamLm.lm_config.model ≠ "" →
        0 < cfgBeamLm.max_active_paths)) ∧
    (cfgBeamLm.decoding_method = "modified_beam_search" → cfgBeamLm.lm_config.model ≠ "" →
      cfgBeamLm.max_active_paths = 0 →
        cfgBeamLm.Validate (fun _ => true) (fun _ => true) = false) ∧
    (cfgBeamLm.decoding_method ≠ "modified_beam_search" ∨ cfgBeamLm.lm_config.model = "" →
      cfgBeamLm.Validate (fun _ => true) (fun _ => true) = true) :=
  Validate_iff_of_subconfigs_accept (fun _ => true) (fun _ => true) cfgBeamLm rfl rfl

/-- C2, as stated, fails: with `modified_beam_search`, `max_active_paths == 0`
and no language model configured, `Validate` returns true once the model
configuration is accepted. -/
theorem Validate_beam_zero_paths_accepted :
    cfgBeamNoLm.decoding_method = "modified_beam_search" ∧
    cfgBeamNoLm.max_active_paths ≤ 0 ∧
    cfgBeamNoLm.Validate (fun _ => true) (fun _ => true) = true := by
  decide

/-- C2, amended. With `modified_beam_search`, a language model configured and
`max_active_paths <= 0`, `Validate` returns false. -/
theorem Validate_false_of_beam_lm_nonpositive_paths {F FE M L E : Type}
    (modelValidate : M → Bool) (lmValidate : OnlineLMConfig L → Bool)
    (cfg : OnlineRecognizerConfig F FE M L E)
    (hd : cfg.decoding_method = "modified_beam_search")
    (hlm : cfg.lm_config.model ≠ "")
    (hp : cfg.max_active_paths ≤ 0) :
    cfg.Validate modelValidate lmValidate = false := by
  unfold OnlineRecognizerConfig.Validate
  rw [if_pos ((beamWithLm_iff cfg).2 ⟨hd, hlm⟩), if_pos hp]

/-- Instance of the amended C2: beam search, a language model, and
`max_active_paths == 0`. -/
theorem Validate_false_of_beam_lm_nonpositive_paths_witness :
    cfgBeamLm.Validate (fun _ => true) (fun _ => true) = false :=
  Validate_false_of_beam_lm_nonpositive_paths (fun _ => true) (fun _ => true) cfgBeamLm
    rfl (by decide) (by decide)

/-- C10. `ToString` returns `OnlineRecognizerConfig(`, then nine fields
`name=value` in the order feat_config, model_config, lm_config,
endpoint_config, enable_endpoint, max_active_paths, hotwords_score,
hotwords_file, decoding_method, separated by a comma and a blank, then `)`.
`enable_endpoint` is `True` when set and `False` otherwise; `hotwords_file` and
`decoding_method` are their content, unchanged, between double quotes. -/
theorem ToString_eq_fields {F FE M L E : Type}
    (render : Bool → Nat → F → String)
    (featToString : FE → String) (modelToString : M → String)
    (lmToString : OnlineLMConfig L → String) (endpointToString : E → String)
    (cfg : OnlineRecognizerConfig F FE M L E) :
    cfg.ToString render featToString modelToString lmToString endpointToString =
      "OnlineRecognizerConfig(" ++ ", ".intercalate
        [ "feat_config=" ++ featToString cfg.feat_config,
          "model_config=" ++ modelToString cfg.model_config,
          "lm_config=" ++ lmToString cfg.lm_config,
          "endpoint_config=" ++ endpointToString cfg.endpoint_config,
          "enable_endpoint=" ++ (if cfg.enable_endpoint = true then "True" else "False"),
          "max_active_paths=" ++ toString cfg.max_active_paths,
          "hotwords_score=" ++ render false 6 cfg.hotwords_score,
          "hotwords_file=" ++ ("\"" ++ cfg.hotwords_file ++ "\""),
          "decoding_method=" ++ ("\"" ++ cfg.decoding_method ++ "\"") ] ++ ")" := by
  have e1 : ("hotwords_file=\"" : String) = "hotwords_file=" ++ "\"" := by decide
  have e2 : ("decoding_method=\"" : String) = "decoding_method=" ++ "\"" := by decide
  have e3 : ("\", " : String) = "\"" ++ ", " := by decide
  have e4 : ("\")" : String) = "\"" ++ ")" := by decide
  simp only [OnlineRecognizerConfig.ToString, OStringStream.init, OStringStream.put,
    OStringStream.putInt, OStringStream.putFloat, OStringStream.str, String.intercalate,
    String.intercalate.go, e1, e2, e3, e4, String.append_assoc, String.empty_append]

/-! ### Joining strings -/

theorem intercalate_go_append (p acc s : String) (xs : List String) :
    String.intercalate.go (p ++ acc) s xs = p ++ String.intercalate.go acc s xs := by
  induction xs generalizing acc with
  | nil => simp [String.intercalate.go]
  | cons x xs ih =>
    simp only [String.intercalate.go]
    rw [← ih]
    simp [String.append_assoc]

theorem intercalate_cons_cons (s a b : String) (r : List String) :
    s.intercalate (a :: b :: r) = a ++ s ++ s.intercalate (b :: r) := by
  simp only [String.intercalate, String.intercalate.go]
  rw [← intercalate_go_append]

/-! ### The timestamps text -/

theorem timestamps_foldl_buf {F : Type} (render : Bool → Nat → F → String)
    (ts : List F) (os : OStringStream) :
    (ts.foldl (timestampsStep render) (os, ", ")).1.buf =
      String.intercalate.go os.buf ", " (ts.map (render true 2)) := by
  induction ts generalizing os with
  | nil => simp [String.intercalate.go]
  | cons t ts ih =>
    simp only [List.foldl_cons, List.map_cons, String.intercalate.go]
    have h : timestampsStep render (os, ", ") t =
        (((((os.put ", ").setFixed).setPrecision 2).putFloat render t), ", ") := rfl
    rw [h, ih]
    rfl

theorem timestampsString_eq {F : Type} (render : Bool → Nat → F → String) (ts : List F) :
    timestampsString render ts = "[" ++ ", ".intercalate (ts.map (render true 2)) ++ "]" := by
  cases ts with
  | nil => rfl
  | cons t ts =>
    simp only [timestampsString, List.foldl_cons, List.map_cons, String.intercalate,
      OStringStream.str]
    have h : timestampsStep render (OStringStream.init.put "[", "") t =
        (⟨"[" ++ render true 2 t, true, 2⟩, ", ") := by
      simp [timestampsStep, OStringStream.put, OStringStream.setFixed,
        OStringStream.setPrecision, OStringStream.putFloat, OStringStream.init]
    rw [h]
    simp only [OStringStream.put]
    rw [timestamps_foldl_buf, intercalate_go_append]

/-! ### Serialisation -/

theorem dumpElems_strings {F : Type} (dumpFloat : F → String) (xs : List String) :
    Json.dumpElems dumpFloat (xs.map Json.str) = ",".intercalate (xs.map quote) := by
  induction xs with
  | nil => rfl
  | cons x xs ih =>
    cases xs with
    | nil => simp [Json.dumpElems, Json.dump, String.intercalate, String.intercalate.go]
    | cons y ys =>
      simp only [List.map_cons] at ih ⊢
      rw [intercalate_cons_cons, ← ih]
      simp [Json.dumpElems, Json.dump]

theorem AsJson_eq {F : Type} (render : Bool → Nat → F → String)
    (r : OnlineRecognizerResult F) :
    r.AsJson render = some (Json.obj
      [ ("is_final", .bool r.is_final),
        ("segment", .int r.segment),
        ("start_time", .float r.start_time),
        ("text", .str r.text),
        ("timestamps", .str (timestampsString render r.timestamps)),
        ("tokens", .arr (r.tokens.map .str)) ]) := by
  rfl

theorem AsJsonString_eq {F : Type} (render : Bool → Nat → F → String)
    (dumpFloat : F → String) (r : OnlineRecognizerResult F) :
    r.AsJsonString render dumpFloat = some (
      "\x7b" ++ "\"is_final\":" ++ (if r.is_final = true then "true" else "false") ++
      "," ++ "\"segment\":" ++ toString r.segment ++
      "," ++ "\"start_time\":" ++ dumpFloat r.start_time ++
      "," ++ "\"text\":" ++ quote r.text ++
      "," ++ "\"timestamps\":" ++
        quote ("[" ++ ", ".intercalate (r.timestamps.map (render true 2)) ++ "]") ++
      "," ++ "\"tokens\":" ++ "[" ++ ",".intercalate (r.tokens.map quote) ++ "]" ++
      "\x7d") := by
  have q1 : quote "is_final" = "\"is_final\"" := by decide
  have q2 : quote "segment" = "\"segment\"" := by decide
  have q3 : quote "start_time" = "\"start_time\"" := by decide
  have q4 : quote "text" = "\"text\"" := by decide
  have q5 : quote "timestamps" = "\"timestamps\"" := by decide
  have q6 : quote "tokens" = "\"tokens\"" := by decide
  have e1 : ("\"is_final\":" : String) = "\"is_final\"" ++ ":" := by decide
  have e2 : ("\"segment\":" : String) = "\"segment\"" ++ ":" := by decide
  have e3 : ("\"start_time\":" : String) = "\"start_time\"" ++ ":" := by decide
  have e4 : ("\"text\":" : String) = "\"text\"" ++ ":" := by decide
  have e5 : ("\"timestamps\":" : String) = "\"timestamps\"" ++ ":" := by decide
  have e6 : ("\"tokens\":" : String) = "\"tokens\"" ++ ":" := by decide
  simp only [OnlineRecognizerResult.AsJsonString, AsJson_eq, Option.map_some', Json.dump,
    Json.dumpMembers, dumpElems_strings, timestampsString_eq, q1, q2, q3, q4, q5, q6,
    e1, e2, e3, e4, e5, e6, String.append_assoc]

/-! ### Fixed notation -/

theorem hiResult_AsJsonString (general : Nat → FiniteFloat → String)
    (shortest : FiniteFloat → String) :
    hiResult.AsJsonString (FiniteFloat.render general) (FiniteFloat.to_chars shortest) =
      some "\x7b\"is_final\":true,\"segment\":0,\"start_time\":0.0,\"text\":\"hi\",\"timestamps\":\"[0.00]\",\"tokens\":[\"hi\"]\x7d" := by
  rfl

/-! ### Result serialisation: the claims -/

/-- C6, as stated, fails: for the result `hi` the returned text is not the
one with the members in the order text, tokens, start_time, timestamps,
segment, is_final, whatever the runtime prints for non-zero numbers. -/
theorem AsJsonString_hi_not_insertion_order :
    ¬ ∃ (general : Nat → FiniteFloat → String) (shortest : FiniteFloat → String),
      hiResult.AsJsonString (FiniteFloat.render general) (FiniteFloat.to_chars shortest) =
        some "\x7b\"text\":\"hi\",\"tokens\":[\"hi\"],\"start_time\":0.0,\"timestamps\":\"[0.00]\",\"segment\":0,\"is_final\":true\x7d" := by
  rintro ⟨general, shortest, h⟩
  rw [hiResult_AsJsonString] at h
  revert h
  decide

/-- C6, amended. For the result `hi`, `AsJsonString` returns exactly
`{"is_final":true,"segment":0,"start_time":0.0,"text":"hi","timestamps":"[0.00]","tokens":["hi"]}`:
the members in the order of their keys, without whitespace. -/
theorem AsJsonString_hi_sorted (general : Nat → FiniteFloat → String)
    (shortest : FiniteFloat → String) :
    hiResult.AsJsonString (FiniteFloat.render general) (FiniteFloat.to_chars shortest) =
      some "\x7b\"is_final\":true,\"segment\":0,\"start_time\":0.0,\"text\":\"hi\",\"timestamps\":\"[0.00]\",\"tokens\":[\"hi\"]\x7d" :=
  hiResult_AsJsonString general shortest

/-- C7. `AsJsonString` returns the serialisation of one JSON object whose keys
are exactly text, tokens, start_time, timestamps, segment and is_final: text is
the string `text`, tokens the array of the strings `tokens` in order,
start_time a number, timestamps a string, segment the integer `segment`, and
is_final the boolean `is_final`. -/
theorem AsJsonString_object {F : Type} (render : Bool → Nat → F → String)
    (dumpFloat : F → String) (r : OnlineRecognizerResult F) :
    ∃ j : Json F, r.AsJson render = some j ∧
      r.AsJsonString render dumpFloat = some (j.dump dumpFloat) ∧
      j.keys = some ["is_final", "segment", "start_time", "text", "timestamps", "tokens"] ∧
      j.get? "text" = some (.str r.text) ∧
      j.get? "tokens" = some (.arr (r.tokens.map .str)) ∧
      j.get? "start_time" = some (.float r.start_time) ∧
      (∃ s, j.get? "timestamps" = some (.str s)) ∧
      j.get? "segment" = some (.int r.segment) ∧
      j.get? "is_final" = some (.bool r.is_final) ∧
      j.dump dumpFloat =
        "\x7b" ++ "\"is_final\":" ++ (if r.is_final = true then "true" else "false") ++
        "," ++ "\"segment\":" ++ toString r.segment ++
        "," ++ "\"start_time\":" ++ dumpFloat r.start_time ++
        "," ++ "\"text\":" ++ quote r.text ++
        "," ++ "\"timestamps\":" ++
          quote ("[" ++ ", ".intercalate (r.timestamps.map (render true 2)) ++ "]") ++
        "," ++ "\"tokens\":" ++ "[" ++ ",".intercalate (r.tokens.map quote) ++ "]" ++
        "\x7d" := by
  refine ⟨_, AsJson_eq render r, ?_, rfl, rfl, rfl, rfl, ⟨_, rfl⟩, rfl, rfl, ?_⟩
  · simp only [OnlineRecognizerResult.AsJsonString, AsJson_eq, Option.map_some']
  · have h := AsJsonString_eq render dumpFloat r
    simp only [OnlineRecognizerResult.AsJsonString, AsJson_eq, Option.map_some',
      Option.some.injEq] at h
    exact h

/-- C8. Whatever the implementation, the result that `GetResult` returns for a
stream has as many timestamps as tokens, and the JSON value built from it by
`AsJsonString` has a tokens array and a timestamps list with the same number
of entries.  The facade returns the implementation's result as it is; that
this result satisfies the length invariant is the specification's description
of the Recognition Result. -/
theorem GetResult_tokens_timestamps_same_length {World Stream F : Type}
    (impl : OnlineRecognizerImpl (Prog World) Stream (RecognitionResult F))
    (render : Bool → Nat → F → String) (s : Stream) (w : World) :
    ∃ r : OnlineRecognizerResult F,
      r = ((OnlineRecognizer.mk impl).GetResult s w).1.toOnlineRecognizerResult ∧
      r.tokens.length = r.timestamps.length ∧
      ∃ (j : Json F) (toks : List (Json F)) (pieces : List String),
        r.AsJson render = some j ∧
        j.get? "tokens" = some (.arr toks) ∧
        j.get? "timestamps" = some (.str ("[" ++ ", ".intercalate pieces ++ "]")) ∧
        toks = r.tokens.map .str ∧
        pieces = r.timestamps.map (render true 2) ∧
        toks.length = pieces.length := by
  have hinv := ((OnlineRecognizer.mk impl).GetResult s w).1.invariant
  refine ⟨_, rfl, hinv, _, _, _, AsJson_eq render _, ?_, ?_, rfl, rfl, ?_⟩
  · rfl
  · rw [← timestampsString_eq]
    rfl
  · simp only [List.length_map]
    exact hinv

/-! ### The facade -/

/-- C9. Each of the seven facade methods is the implementation's operation of
the same name applied to the same arguments, and nothing else: as a
computation it equals the implementation's, in every effect.  On an
instrumented implementation one call of a facade method appends exactly one
entry to the log, the call of the same name with the same arguments (for
`DecodeStreams` the same handle array and the same `n`), and yields the result
and the state of the implementation's operation. -/
theorem facade_is_delegation :
    (∀ (m : Type → Type) (Stream Result : Type) (self : OnlineRecognizer m Stream Result),
      self.CreateStream = self.impl_.CreateStream ∧
      (∀ hotwords, self.CreateStreamHotwords hotwords = self.impl_.CreateStreamHotwords hotwords) ∧
      (∀ s, self.IsReady s = self.impl_.IsReady s) ∧
      (∀ ss n, self.DecodeStreams ss n = self.impl_.DecodeStreams ss n) ∧
      (∀ s, self.GetResult s = self.impl_.GetResult s) ∧
      (∀ s, self.IsEndpoint s = self.impl_.IsEndpoint s) ∧
      (∀ s, self.Reset s = self.impl_.Reset s)) ∧
    (∀ (World Stream Result : Type) (impl : OnlineRecognizerImpl (Prog World) Stream Result)
        (w : World) (log : List (Call Stream)),
      (OnlineRecognizer.mk (traced impl)).CreateStream (w, log) =
        ((impl.CreateStream w).1, ((impl.CreateStream w).2, log ++ [Call.CreateStream])) ∧
      (∀ hotwords, (OnlineRecognizer.mk (traced impl)).CreateStreamHotwords hotwords (w, log) =
        ((impl.CreateStreamHotwords hotwords w).1,
          ((impl.CreateStreamHotwords hotwords w).2,
            log ++ [Call.CreateStreamHotwords hotwords]))) ∧
      (∀ s, (OnlineRecognizer.mk (traced impl)).IsReady s (w, log) =
        ((impl.IsReady s w).1, ((impl.IsReady s w).2, log ++ [Call.IsReady s]))) ∧
      (∀ ss n, (OnlineRecognizer.mk (traced impl)).DecodeStreams ss n (w, log) =
        ((impl.DecodeStreams ss n w).1,
          ((impl.DecodeStreams ss n w).2, log ++ [Call.DecodeStreams ss n]))) ∧
      (∀ s, (OnlineRecognizer.mk (traced impl)).GetResult s (w, log) =
        ((impl.GetResult s w).1, ((impl.GetResult s w).2, log ++ [Call.GetResult s]))) ∧
      (∀ s, (OnlineRecognizer.mk (traced impl)).IsEndpoint s (w, log) =
        ((impl.IsEndpoint s w).1, ((impl.IsEndpoint s w).2, log ++ [Call.IsEndpoint s]))) ∧
      (∀ s, (OnlineRecognizer.mk (traced impl)).Reset s (w, log) =
        ((impl.Reset s w).1, ((impl.Reset s w).2, log ++ [Call.Reset s])))) := by
  refine ⟨?_, ?_⟩
  · intro m Stream Result self
    exact ⟨rfl, fun _ => rfl, fun _ => rfl, fun _ _ => rfl, fun _ => rfl, fun _ => rfl,
      fun _ => rfl⟩
  · intro World Stream Result impl w log
    exact ⟨rfl, fun _ => rfl, fun _ => rfl, fun _ _ => rfl, fun _ => rfl, fun _ => rfl,
      fun _ => rfl⟩

/-- C4. When `Validate` returns false for a configuration, constructing an
`OnlineRecognizer` from it fails with `ConfigurationError` and no recognizer is
produced.  The constructor itself only hands the configuration to the factory
`OnlineRecognizerImpl::Create`; the check is the factory's, as the
specification describes it. -/
theorem new_fails_of_invalid {m : Type → Type} {Stream Result F FE M L E : Type}
    (modelValidate : M → Bool) (lmValidate : OnlineLMConfig L → Bool)
    (build : OnlineRecognizerConfig F FE M L E → OnlineRecognizerImpl m Stream Result)
    (config : OnlineRecognizerConfig F FE M L E)
    (h : config.Validate modelValidate lmValidate = false) :
    OnlineRecognizer.new (OnlineRecognizerImpl.Create modelValidate lmValidate build) config =
      .error .ConfigurationError := by
  simp [OnlineRecognizer.new, OnlineRecognizerImpl.Create, h]

/-- Instance of C4: beam search with a language model and
`max_active_paths == 0`. -/
theorem new_fails_of_invalid_witness :
    cfgBeamLm.Validate (fun _ => true) (fun _ => true) = false ∧
    OnlineRecognizer.new
      (OnlineRecognizerImpl.Create (fun _ => true) (fun _ => true) (fun _ => sampleImpl))
      cfgBeamLm = .error .ConfigurationError :=
  ⟨by decide, new_fails_of_invalid (fun _ => true) (fun _ => true) (fun _ => sampleImpl)
    cfgBeamLm (by decide)⟩

end sherpa_onnx
